import Mathlib

/-!
Verification of the trajectory playback utility
(robocasa/scripts/playback_dataset.py).

The development shallowly embeds the playback script: simulator state
vectors are lists of integers, the physics backend is an abstract
deterministic transition function passed as a parameter, and the random
draw of the window start (random.randrange) is an abstract function
whose range constraint appears as a hypothesis where needed.
-/

/-- Flattened simulator state vector (mujoco sim.get_state().flatten()).
The physics values are modelled as integers; equality of two states is
elementwise as in np.all(np.equal(a, b)). -/
abbrev Vec := List Int

/-- Elementwise difference of two state vectors (states[i+1] - state_playback). -/
def vecSub (a b : Vec) : Vec := List.zipWith (fun x y => x - y) a b

/-- Squared Euclidean norm; np.linalg.norm computes its square root, which is
order isomorphic, so warnings carry the squared norm here. -/
def normSq (a : Vec) : Int := (a.map (fun x => x * x)).sum

/-- Observable state of the simulation environment: the flattened numeric
state, the structural scene description currently loaded, and an
instrumentation counter of structural reloads (the env.reset +
env.reset_from_xml_string + env.sim.reset block in reset_to). -/
structure EnvModel where
  simState : Vec
  sceneXml : String
  reloads : Nat
deriving DecidableEq

/-- The state dict passed to reset_to: one or more of the keys
model, states, ep_meta. -/
structure StateDict where
  model : Option String := none
  states : Option Vec := none
  epMeta : Option String := none

/-- Embedding of reset_to (playback_dataset.py lines 239-297).  If the dict
has a model key, the scene is structurally reloaded from the XML (a full
reset followed by reset_from_xml_string; counted by the reloads field).
If the dict has a states key, the flattened numeric state is restored and
a physics forward pass is run (the forward pass has no observable effect
in this model).  The ep_meta handling and the update_state hook change
only auxiliary attributes and are not tracked. -/
def reset_to (env : EnvModel) (sd : StateDict) : EnvModel :=
  let env1 :=
    match sd.model with
    | some xml => { env with sceneXml := xml, reloads := env.reloads + 1 }
    | none => env
  match sd.states with
  | some v => { env1 with simState := v }
  | none => env1

/-- Window selection (lines 87-92): with no num_frames limit the full
trajectory [0, traj_len) is played; otherwise the start frame is
random.randrange(traj_len - min(num_frames, traj_len) + 1) and the end
frame is start + min(num_frames, traj_len).  The function rand stands for
random.randrange: rand n is the draw from [0, n). -/
def windowSelect (numFrames : Option Nat) (trajLen : Nat) (rand : Nat → Nat) : Nat × Nat :=
  match numFrames with
  | none => (0, trajLen)
  | some w =>
    let s := rand (trajLen - min w trajLen + 1)
    (s, s + min w trajLen)

/-- Divergence check of one action-replay step (lines 98-111): only for
i < traj_len - 1; the snapshot is compared elementwise to states[i+1]; on
any difference the norm of the difference is computed and a warning is
emitted exactly when verbose is set or i == traj_len - 2. -/
def stepWarning (states : List Vec) (trajLen : Nat) (verbose : Bool) (i : Nat)
    (snap : Vec) : Option (Nat × Int) :=
  if i < trajLen - 1 then
    let target := states.getD (i + 1) []
    if target = snap then none
    else if verbose = true ∨ (i : Int) = (trajLen : Int) - 2 then
      some (i, normSq (vecSub target snap))
    else none
  else none

/-- Result of the playback loop: final environment, the emitted divergence
warnings in order (step index, squared norm), the number of frames
appended to the video writer, and the list of step indices that were
executed. -/
structure PlayResult where
  env : EnvModel
  warnings : List (Nat × Int)
  frames : Nat
  steps : List Nat
deriving DecidableEq

/-- The playback loop of playback_trajectory_with_env (lines 93-147),
processing the given list of step indices.  In action-replay mode each
step advances the simulation with dyn applied to actions[i] and runs the
divergence check; in state-replay mode each step calls reset_to with a
dict containing only the states key.  A frame is appended whenever the
video counter is divisible by video_skip; the counter increments only
when a video writer is present.  With first set, the loop breaks after
one iteration. -/
def playLoop (dyn : Vec → Vec → Vec) (states acts : List Vec) (actionPlayback : Bool)
    (writeVideo : Bool) (videoSkip : Nat) (first verbose : Bool) (trajLen : Nat) :
    List Nat → EnvModel → Nat → PlayResult
  | [], env, _ => { env := env, warnings := [], frames := 0, steps := [] }
  | i :: rest, env, videoCount =>
    let env2 :=
      if actionPlayback then { env with simState := dyn (acts.getD i []) env.simState }
      else reset_to env { states := some (states.getD i []) }
    let warn : List (Nat × Int) :=
      if actionPlayback then (stepWarning states trajLen verbose i env2.simState).toList
      else []
    let frame : Nat := if writeVideo && decide (videoCount % videoSkip = 0) then 1 else 0
    let videoCount2 := if writeVideo then videoCount + 1 else videoCount
    if first then { env := env2, warnings := warn, frames := frame, steps := [i] }
    else
      let r := playLoop dyn states acts actionPlayback writeVideo videoSkip first verbose
        trajLen rest env2 videoCount2
      { env := r.env, warnings := warn ++ r.warnings, frames := frame + r.frames,
        steps := i :: r.steps }

/-- Embedding of playback_trajectory_with_env (lines 25-151).  The two
assertions become Except errors: render together with a video writer
(line 63), and, in action playback, a state sequence whose length differs
from the action sequence (line 82).  Then the initial state is loaded via
reset_to, the window is selected, and the loop runs over
range(start_frame, end_frame). -/
def playback_trajectory_with_env (dyn : Vec → Vec → Vec) (rand : Nat → Nat)
    (numFrames : Option Nat) (env : EnvModel) (initialState : StateDict)
    (states : List Vec) (actions : Option (List Vec)) (render : Bool)
    (writeVideo : Bool) (videoSkip : Nat) (first verbose : Bool) :
    Except String PlayResult :=
  if render && writeVideo then
    Except.error ("assert not (render and write_video)")
  else
    let env1 := reset_to env initialState
    let trajLen := states.length
    let actionPlayback := actions.isSome
    if actionPlayback && decide (states.length ≠ (actions.getD []).length) then
      Except.error ("assert states.shape[0] == actions.shape[0]")
    else
      let se := windowSelect numFrames trajLen rand
      Except.ok (playLoop dyn states (actions.getD []) actionPlayback writeVideo videoSkip
        first verbose trajLen (List.range' se.1 (se.2 - se.1)) env1 0)

/-- The frame-writing loop of playback_trajectory_with_obs (lines 176-188):
per index, a frame is written when the counter is divisible by video_skip,
the counter always increments, and first breaks after one iteration.
Returns the number of frames written. -/
def obsLoop (videoSkip : Nat) (first : Bool) : List Nat → Nat → Nat
  | [], _ => 0
  | _ :: rest, videoCount =>
    let frame : Nat := if videoCount % videoSkip = 0 then 1 else 0
    if first then frame else frame + obsLoop videoSkip first rest (videoCount + 1)

/-- Embedding of playback_trajectory_with_obs (lines 154-188), abstracted to
the number of frames it writes for a trajectory of the given length. -/
def playback_trajectory_with_obs (trajLen videoSkip : Nat) (first : Bool) : Nat :=
  obsLoop videoSkip first (List.range trajLen) 0

/-- The write_video flag computed by process_demo (line 348) and by
playback_dataset (line 442): video output happens exactly when on-screen
rendering is not requested. -/
def process_demo_write_video (render : Bool) : Bool := !render

/-- State-sequence preparation in process_demo (lines 403-404): with
extend_states set, 50 copies of the final state are appended; the action
sequence is left untouched. -/
def process_demo_states (states : List Vec) (extendStates : Bool) : List Vec :=
  if extendStates then states ++ List.replicate 50 (states.getLastD []) else states

/-- Initial-state dict built by process_demo (lines 394-401): states[0], the
model XML (the ik-invisible processed model file, or the current env model
when use_current_env_model is set -- either way a present model key), and
the episode metadata. -/
def process_demo_initial_state (states : List Vec) (modelXml : String)
    (epMeta : Option String) : StateDict :=
  { model := some modelXml, states := some (states.getD 0 []), epMeta := epMeta }

/-- Run configuration fields of playback_dataset relevant to the
render/video exclusivity check: whether --render was passed and whether a
video path was requested. -/
structure DispatchArgs where
  render : Bool
  videoPathGiven : Bool
deriving DecidableEq

/-- The arg check of playback_dataset (lines 442-449): write_video is
derived as the negation of render, and the assertion rejects render
together with write_video.  The requested video path plays no role in
the check. -/
def playback_dataset_arg_check (a : DispatchArgs) : Bool :=
  !(a.render && process_demo_write_video a.render)

/-- Episode identifiers are modelled as explicit character lists so that
concrete instances evaluate inside the kernel. -/
abbrev EpisodeId := List Char

/-- Decimal parse of a digit string, as int() does on the numeric suffix. -/
def parseNatDigits (cs : List Char) : Nat :=
  cs.foldl (fun n c => 10 * n + (c.toNat - 48)) 0

/-- Numeric key used to order episodes (line 483): int(elem[5:]), the
integer value of the characters after the 5-character demo_ prefix.
The claims only concern identifiers of the form demo_n, where every
dropped-suffix character is a decimal digit. -/
def episodeKey (s : EpisodeId) : Nat := parseNatDigits (s.drop 5)

/-- Episode ordering of playback_dataset (lines 483-484): sort the episode
identifiers in increasing order of their numeric key (np.argsort over
int(elem[5:]) followed by reindexing). -/
def orderEpisodes (demos : List EpisodeId) : List EpisodeId :=
  List.insertionSort (fun a b => episodeKey a ≤ episodeKey b) demos

/-- Outcome of processing one episode: normal completion or a raised
exception. -/
inductive EpOutcome where
  | ok
  | exc
deriving DecidableEq

/-- What the dispatcher reports for one episode in parallel mode. -/
inductive DispatchReport where
  | completed
  | failedReported
deriving DecidableEq

/-- Parallel dispatch (lines 496-506): every submitted episode future is
awaited; an exception from one episode is caught at the dispatcher
boundary and reported with that episode identifier, and the remaining
episodes are unaffected. -/
def parallel_dispatch (eps : List (String × EpOutcome)) : List (String × DispatchReport) :=
  eps.map (fun e =>
    (e.1,
      match e.2 with
      | EpOutcome.ok => DispatchReport.completed
      | EpOutcome.exc => DispatchReport.failedReported))

/-- Sequential dispatch (lines 491-494): episodes are processed in order
with no exception handling, so the first raising episode propagates its
exception (Except.error with the episode identifier) and the remaining
episodes never run; otherwise the list of processed identifiers is
returned. -/
def sequential_dispatch : List (String × EpOutcome) → Except String (List String)
  | [] => Except.ok []
  | e :: rest =>
    match e.2 with
    | EpOutcome.ok => (sequential_dispatch rest).map (fun l => e.1 :: l)
    | EpOutcome.exc => Except.error e.1

/-- Exit behaviour of the whole run: an explicit exit code, or an uncaught
exception propagating out of playback_dataset (the interpreter then
terminates unsuccessfully). -/
inductive RunExit where
  | code (n : Nat)
  | uncaught
deriving DecidableEq

/-- Exit behaviour of the sequential episode loop: code 0 when every
episode completes, otherwise the first exception escapes uncaught. -/
def sequentialRunExit : List EpOutcome → RunExit
  | [] => RunExit.code 0
  | EpOutcome.ok :: rest => sequentialRunExit rest
  | EpOutcome.exc :: _ => RunExit.uncaught

/-- Number of episodes whose processing begins in the sequential loop:
all of them when none raises, otherwise those up to and including the
first raising one. -/
def sequentialBegun : List EpOutcome → Nat
  | [] => 0
  | EpOutcome.ok :: rest => 1 + sequentialBegun rest
  | EpOutcome.exc :: _ => 1

/-- Exit behaviour of playback_dataset (lines 467-508): a dataset-open
failure prints and exits with status 1 before the episode loop; with the
dataset open, parallel dispatch always completes and the process ends
with status 0, while sequential dispatch lets a per-episode exception
escape. -/
def playback_dataset_run (openOk : Bool) (parallel : Bool) (eps : List EpOutcome) :
    RunExit :=
  if !openOk then RunExit.code 1
  else if parallel then RunExit.code 0
  else sequentialRunExit eps

/-- Number of episodes whose processing begins during the run: zero when
the dataset-open fails, all in parallel mode, and the sequential count
otherwise. -/
def playback_dataset_episodes_begun (openOk : Bool) (parallel : Bool)
    (eps : List EpOutcome) : Nat :=
  if !openOk then 0
  else if parallel then eps.length
  else sequentialBegun eps

/-- Fold of the abstract dynamics over the actions at the given step
indices: the simulator state reached from st after executing those
steps of action playback. -/
def runActions (dyn : Vec → Vec → Vec) (acts : List Vec) (st : Vec)
    (idxs : List Nat) : Vec :=
  idxs.foldl (fun s j => dyn (acts.getD j []) s) st

/-- Simulator state right after stepping index i of an action-replay window
that started at index a in state st. -/
def stateAfterFrom (dyn : Vec → Vec → Vec) (acts : List Vec) (st : Vec)
    (a i : Nat) : Vec :=
  runActions dyn acts st (List.range' a (i + 1 - a))

/-- Number of multiples of the sampling interval among the counter values
c, c+1, ..., c+n-1: how many of n consecutive iterations write a frame. -/
def multCount (k c n : Nat) : Nat :=
  (List.range n).countP (fun j => decide ((c + j) % k = 0))

/-- Every dispatched episode yields exactly one report in parallel mode. -/
lemma parallel_dispatch_length (eps : List (String × EpOutcome)) :
    (parallel_dispatch eps).length = eps.length := by
  simp [parallel_dispatch]

/-- Completions reported by parallel dispatch match the normally
terminating episodes. -/
lemma parallel_dispatch_completed (eps : List (String × EpOutcome)) :
    (parallel_dispatch eps).countP (fun r => decide (r.2 = DispatchReport.completed))
      = eps.countP (fun e => decide (e.2 = EpOutcome.ok)) := by
  induction eps with
  | nil => rfl
  | cons e rest ih =>
    obtain ⟨name, o⟩ := e
    cases o <;> simp [parallel_dispatch, List.countP_cons] at ih ⊢ <;> omega

/-- Failures reported by parallel dispatch match the raising episodes. -/
lemma parallel_dispatch_failed (eps : List (String × EpOutcome)) :
    (parallel_dispatch eps).countP (fun r => decide (r.2 = DispatchReport.failedReported))
      = eps.countP (fun e => decide (e.2 = EpOutcome.exc)) := by
  induction eps with
  | nil => rfl
  | cons e rest ih =>
    obtain ⟨name, o⟩ := e
    cases o <;> simp [parallel_dispatch, List.countP_cons] at ih ⊢ <;> omega

/-- Each episode outcome is either a completion or an exception, so the two
counts partition the episode list. -/
lemma outcome_count_split (eps : List (String × EpOutcome)) :
    eps.countP (fun e => decide (e.2 = EpOutcome.ok))
      + eps.countP (fun e => decide (e.2 = EpOutcome.exc)) = eps.length := by
  induction eps with
  | nil => simp
  | cons e rest ih =>
    obtain ⟨name, o⟩ := e
    cases o <;> simp [List.countP_cons] <;> omega

/-- Claim C6: in parallel dispatch an exception in one episode is caught at
the dispatcher boundary and reported with that episode identifier while the
other episodes still complete (one failing episode among N yields N-1
completions and one reported failure, and every episode is accounted for);
in sequential mode there is no catch, so the first raising episode
propagates its exception out of the dispatch loop and the remaining
episodes are never processed. -/
theorem dispatch_failure_isolation :
    (∀ eps : List (String × EpOutcome),
      eps.countP (fun e => decide (e.2 = EpOutcome.exc)) = 1 →
      (parallel_dispatch eps).length = eps.length ∧
      (parallel_dispatch eps).countP (fun r => decide (r.2 = DispatchReport.completed))
        = eps.length - 1 ∧
      (parallel_dispatch eps).countP (fun r => decide (r.2 = DispatchReport.failedReported))
        = 1) ∧
    (∀ (pre post : List (String × EpOutcome)) (epid : String),
      (∀ e ∈ pre, e.2 = EpOutcome.ok) →
      sequential_dispatch (pre ++ (epid, EpOutcome.exc) :: post) = Except.error epid) := by
  constructor
  · intro eps hone
    have hlen := parallel_dispatch_length eps
    have hok := parallel_dispatch_completed eps
    have hexc := parallel_dispatch_failed eps
    have hsplit := outcome_count_split eps
    exact ⟨hlen, by omega, by omega⟩
  · intro pre post epid hok
    induction pre with
    | nil => simp [sequential_dispatch]
    | cons e rest ih =>
      obtain ⟨name, o⟩ := e
      have he : o = EpOutcome.ok := hok ⟨name, o⟩ (List.mem_cons_self _ _)
      subst he
      have := ih (fun x hx => hok x (List.mem_cons_of_mem _ hx))
      simp [sequential_dispatch, this, Except.map]

/-- Witness for C6 at a concrete three-episode run whose middle episode
raises: parallel dispatch reports all three, two completions and one
failure; sequential dispatch propagates the failure of the middle episode. -/
theorem dispatch_failure_isolation_witness :
    ([("a", EpOutcome.ok), ("b", EpOutcome.exc), ("c", EpOutcome.ok)].countP
        (fun e => decide (e.2 = EpOutcome.exc)) = 1) ∧
    (parallel_dispatch [("a", EpOutcome.ok), ("b", EpOutcome.exc), ("c", EpOutcome.ok)]).length
        = 3 ∧
    (parallel_dispatch [("a", EpOutcome.ok), ("b", EpOutcome.exc), ("c", EpOutcome.ok)]).countP
        (fun r => decide (r.2 = DispatchReport.completed)) = 3 - 1 ∧
    (parallel_dispatch [("a", EpOutcome.ok), ("b", EpOutcome.exc), ("c", EpOutcome.ok)]).countP
        (fun r => decide (r.2 = DispatchReport.failedReported)) = 1 ∧
    sequential_dispatch [("a", EpOutcome.ok), ("b", EpOutcome.exc), ("c", EpOutcome.ok)]
        = Except.error "b" := by
  have hpar := dispatch_failure_isolation.1
    [("a", EpOutcome.ok), ("b", EpOutcome.exc), ("c", EpOutcome.ok)] (by decide)
  have hseq := dispatch_failure_isolation.2
    [("a", EpOutcome.ok)] [("c", EpOutcome.ok)] "b" (by decide)
  have hcast : [("a", EpOutcome.ok)] ++ ("b", EpOutcome.exc) :: [("c", EpOutcome.ok)]
      = [("a", EpOutcome.ok), ("b", EpOutcome.exc), ("c", EpOutcome.ok)] := by decide
  exact ⟨by decide, hpar.1, hpar.2.1, hpar.2.2, hcast ▸ hseq⟩

/-- Counterexample to C7 as stated: with the dataset open, a sequential run
(num_parallel_jobs == 1) containing one failing episode does not exit with
status 0 -- the exception escapes the dispatch loop uncaught. -/
theorem exit_status_counterexample :
    playback_dataset_run true false [EpOutcome.exc] ≠ RunExit.code 0 := by
  decide

/-- Claim C7 (amended): a dataset-open failure exits with status 1 before
any episode begins processing; with the dataset open, a parallel run exits
with status 0 even when episodes fail, and a sequential run exits with
status 0 when no episode fails (a sequential episode failure instead
propagates as an uncaught exception). -/
theorem exit_status_policy :
    (∀ (parallel : Bool) (eps : List EpOutcome),
      playback_dataset_run false parallel eps = RunExit.code 1 ∧
      playback_dataset_episodes_begun false parallel eps = 0) ∧
    (∀ eps : List EpOutcome, playback_dataset_run true true eps = RunExit.code 0) ∧
    (∀ eps : List EpOutcome, (∀ e ∈ eps, e = EpOutcome.ok) →
      playback_dataset_run true false eps = RunExit.code 0) := by
  refine ⟨fun parallel eps => ⟨rfl, rfl⟩, fun eps => rfl, fun eps h => ?_⟩
  have hseq : ∀ l : List EpOutcome, (∀ e ∈ l, e = EpOutcome.ok) →
      sequentialRunExit l = RunExit.code 0 := by
    intro l
    induction l with
    | nil => intro _; rfl
    | cons e rest ih =>
      intro hl
      have he : e = EpOutcome.ok := hl e (List.mem_cons_self _ _)
      subst he
      simpa [sequentialRunExit] using ih (fun x hx => hl x (List.mem_cons_of_mem _ hx))
  simpa [playback_dataset_run] using hseq eps h

/-- Witness for the amended C7 at concrete runs: an open failure exits 1
with no episode begun, a parallel run with a failing episode exits 0, and
an all-successful sequential run exits 0. -/
theorem exit_status_policy_witness :
    (playback_dataset_run false true [EpOutcome.ok] = RunExit.code 1 ∧
      playback_dataset_episodes_begun false true [EpOutcome.ok] = 0) ∧
    playback_dataset_run true true [EpOutcome.exc] = RunExit.code 0 ∧
    (∀ e ∈ [EpOutcome.ok, EpOutcome.ok], e = EpOutcome.ok) ∧
    playback_dataset_run true false [EpOutcome.ok, EpOutcome.ok] = RunExit.code 0 :=
  ⟨exit_status_policy.1 true [EpOutcome.ok],
    exit_status_policy.2.1 [EpOutcome.exc],
    by decide,
    exit_status_policy.2.2 [EpOutcome.ok, EpOutcome.ok] (by decide)⟩

/-- Counterexample to C5 as stated: the run configuration that requests
both on-screen rendering and a video path passes the dispatcher arg check
(the check derives write_video as the negation of render, so it can never
reject), instead of failing validation. -/
theorem render_video_exclusivity_counterexample :
    playback_dataset_arg_check { render := true, videoPathGiven := true } = true := by
  decide

/-- Claim C5 (amended): the dispatcher derives write_video as the negation
of on-screen rendering, so its exclusivity assertion always passes and no
run configuration is rejected (requesting both on-screen rendering and a
video path simply disables video output); only a direct call of the
playback helper with both render set and a video writer present fails its
assertion. -/
theorem render_video_exclusivity :
    (∀ a : DispatchArgs, playback_dataset_arg_check a = true) ∧
    (∀ (dyn : Vec → Vec → Vec) (rand : Nat → Nat) (numFrames : Option Nat)
      (env : EnvModel) (initialState : StateDict) (states : List Vec)
      (actions : Option (List Vec)) (videoSkip : Nat) (first verbose : Bool),
      playback_trajectory_with_env dyn rand numFrames env initialState states actions
        true true videoSkip first verbose
        = Except.error ("assert not (render and write_video)")) := by
  constructor
  · intro a
    obtain ⟨r, v⟩ := a
    cases r <;> rfl
  · intro dyn rand numFrames env initialState states actions videoSkip first verbose
    rfl

/-- Claim C8: the working episode list is ordered by the integer value of
the numeric suffix after the 5-character demo_ prefix, not
lexicographically; in particular demo_2 is placed before demo_10, and in
general the ordering is a permutation of the input sorted by the numeric
key. -/
theorem episode_ordering_numeric :
    orderEpisodes [['d','e','m','o','_','1','0'], ['d','e','m','o','_','2']]
      = [['d','e','m','o','_','2'], ['d','e','m','o','_','1','0']] ∧
    ∀ l : List EpisodeId,
      List.Sorted (fun a b => episodeKey a ≤ episodeKey b) (orderEpisodes l) ∧
      (orderEpisodes l).Perm l := by
  constructor
  · decide
  · intro l
    haveI : IsTotal EpisodeId (fun a b => episodeKey a ≤ episodeKey b) :=
      ⟨fun a b => Nat.le_total _ _⟩
    haveI : IsTrans EpisodeId (fun a b => episodeKey a ≤ episodeKey b) :=
      ⟨fun a b c => Nat.le_trans⟩
    exact ⟨List.sorted_insertionSort _ l, List.perm_insertionSort _ l⟩

/-- With first off, the playback loop executes every index of its window,
in order, in both replay modes: nothing aborts or shortens the loop. -/
lemma playLoop_steps (dyn : Vec → Vec → Vec) (states acts : List Vec) (ap wv : Bool)
    (k : Nat) (vb : Bool) (L : Nat) :
    ∀ (idxs : List Nat) (env : EnvModel) (c : Nat),
      (playLoop dyn states acts ap wv k false vb L idxs env c).steps = idxs := by
  intro idxs
  induction idxs with
  | nil => intro env c; rfl
  | cons i rest ih => intro env c; simp [playLoop, ih]

/-- No iteration of the playback loop performs a structural reload or
changes the loaded scene: action steps only advance the numeric state, and
state-replay steps call reset_to with a dict containing only the states
key. -/
lemma playLoop_env_preserved (dyn : Vec → Vec → Vec) (states acts : List Vec)
    (ap wv : Bool) (k : Nat) (first vb : Bool) (L : Nat) :
    ∀ (idxs : List Nat) (env : EnvModel) (c : Nat),
      (playLoop dyn states acts ap wv k first vb L idxs env c).env.reloads = env.reloads ∧
      (playLoop dyn states acts ap wv k first vb L idxs env c).env.sceneXml = env.sceneXml := by
  intro idxs
  induction idxs with
  | nil => intro env c; exact ⟨rfl, rfl⟩
  | cons i rest ih =>
    intro env c
    cases ap <;> cases first <;> simp [playLoop, reset_to, ih]

/-- Splitting off the first of n+1 consecutive counter values. -/
lemma multCount_succ (k c n : Nat) :
    multCount k c (n + 1) = (if c % k = 0 then 1 else 0) + multCount k (c + 1) n := by
  unfold multCount
  rw [List.range_succ_eq_map, List.countP_cons, List.countP_map]
  have h : ((fun j => decide ((c + j) % k = 0)) ∘ Nat.succ)
      = (fun j => decide ((c + 1 + j) % k = 0)) := by
    funext j
    show decide ((c + Nat.succ j) % k = 0) = decide ((c + 1 + j) % k = 0)
    have hj : c + Nat.succ j = c + 1 + j := by omega
    rw [hj]
  rw [h]
  simp [Nat.add_comm]

/-- Number of multiples of k among 0, ..., n-1 is the ceiling of n / k. -/
lemma multCount_eq_ceil (k : Nat) (hk : 0 < k) :
    ∀ n : Nat, multCount k 0 n = (n + k - 1) / k := by
  intro n
  induction n with
  | zero =>
    have : (k - 1) / k = 0 := Nat.div_eq_of_lt (by omega)
    simpa [multCount] using this.symm
  | succ n ih =>
    have hstep : multCount k 0 (n + 1) = multCount k 0 n + (if n % k = 0 then 1 else 0) := by
      simp [multCount, List.range_succ, List.countP_append, List.countP_cons]
    rw [hstep, ih]
    have h1 : n + 1 + k - 1 = (n + k - 1) + 1 := by omega
    rw [h1, Nat.succ_div]
    have h2 : n + k - 1 + 1 = n + k := by omega
    rw [h2]
    have h3 : (k ∣ n + k) ↔ (n % k = 0) := by
      rw [Nat.dvd_add_self_right, Nat.dvd_iff_mod_eq_zero]
    simp [h3]

/-- With a video writer present and first off, the number of frames the
playback loop appends is the number of counter values divisible by the
sampling interval. -/
lemma playLoop_frames (dyn : Vec → Vec → Vec) (states acts : List Vec) (ap : Bool)
    (k : Nat) (vb : Bool) (L : Nat) :
    ∀ (idxs : List Nat) (env : EnvModel) (c : Nat),
      (playLoop dyn states acts ap true k false vb L idxs env c).frames
        = multCount k c idxs.length := by
  intro idxs
  induction idxs with
  | nil => intro env c; simp [playLoop, multCount]
  | cons i rest ih =>
    intro env c
    simp [playLoop, ih, multCount_succ]

/-- Same frame count for the observation playback loop. -/
lemma obsLoop_frames (k : Nat) :
    ∀ (idxs : List Nat) (c : Nat), obsLoop k false idxs c = multCount k c idxs.length := by
  intro idxs
  induction idxs with
  | nil => intro c; simp [obsLoop, multCount]
  | cons i rest ih =>
    intro c
    simp [obsLoop, ih, multCount_succ]

/-- The state right after the first step of a window is one application of
the dynamics to the starting state. -/
lemma stateAfterFrom_self (dyn : Vec → Vec → Vec) (acts : List Vec) (st : Vec) (a : Nat) :
    stateAfterFrom dyn acts st a a = dyn (acts.getD a []) st := by
  have h : a + 1 - a = 1 := by omega
  simp [stateAfterFrom, h, List.range'_one, runActions]

/-- Advancing the window start by one step commutes with taking one step of
the dynamics first. -/
lemma stateAfterFrom_shift (dyn : Vec → Vec → Vec) (acts : List Vec) (st : Vec)
    (a i : Nat) (hai : a + 1 ≤ i) :
    stateAfterFrom dyn acts (dyn (acts.getD a []) st) (a + 1) i
      = stateAfterFrom dyn acts st a i := by
  have h1 : i + 1 - a = (i - a) + 1 := by omega
  have h2 : i + 1 - (a + 1) = i - a := by omega
  simp [stateAfterFrom, h1, h2, List.range'_succ, runActions]

/-- Head case of filterMap, phrased with Option.toList. -/
lemma filterMap_cons_toList {α β : Type} (f : α → Option β) (a : α) (l : List α) :
    List.filterMap f (a :: l) = (f a).toList ++ List.filterMap f l := by
  cases h : f a <;> simp [List.filterMap_cons, h]

/-- In action-replay mode with first off, the warnings emitted by the
playback loop over a window are exactly the per-index divergence warnings,
where the snapshot compared at index i is the deterministic fold of the
dynamics over the actions of the window up to i. -/
lemma playLoop_warnings_action (dyn : Vec → Vec → Vec) (states acts : List Vec)
    (wv : Bool) (k : Nat) (vb : Bool) (L : Nat) :
    ∀ (n a : Nat) (env : EnvModel) (c : Nat),
      (playLoop dyn states acts true wv k false vb L (List.range' a n) env c).warnings
        = (List.range' a n).filterMap
            (fun i => stepWarning states L vb i (stateAfterFrom dyn acts env.simState a i)) := by
  intro n
  induction n with
  | zero => intro a env c; rfl
  | succ n ih =>
    intro a env c
    rw [List.range'_succ, filterMap_cons_toList]
    have htail : List.filterMap
        (fun i => stepWarning states L vb i (stateAfterFrom dyn acts env.simState a i))
        (List.range' (a + 1) n)
      = List.filterMap
        (fun i => stepWarning states L vb i
          (stateAfterFrom dyn acts (dyn (acts.getD a []) env.simState) (a + 1) i))
        (List.range' (a + 1) n) := by
      apply List.filterMap_congr
      intro i hi
      have hai : a + 1 ≤ i := (List.mem_range'_1.mp hi).1
      rw [stateAfterFrom_shift dyn acts env.simState a i hai]
    rw [htail, stateAfterFrom_self]
    simp [playLoop, ih]

/-- Success path of the playback helper in state-replay mode: with the
render/write_video assertion passing and no actions supplied, the helper
loads the initial state and runs the loop over the selected window. -/
lemma playback_state_mode (dyn : Vec → Vec → Vec) (rand : Nat → Nat)
    (numFrames : Option Nat) (env : EnvModel) (initialState : StateDict)
    (states : List Vec) (render writeVideo : Bool) (videoSkip : Nat)
    (first verbose : Bool) (hrw : (render && writeVideo) = false) :
    playback_trajectory_with_env dyn rand numFrames env initialState states none
        render writeVideo videoSkip first verbose
      = Except.ok (playLoop dyn states [] false writeVideo videoSkip first verbose
          states.length
          (List.range' (windowSelect numFrames states.length rand).1
            ((windowSelect numFrames states.length rand).2
              - (windowSelect numFrames states.length rand).1))
          (reset_to env initialState) 0) := by
  simp [playback_trajectory_with_env, hrw]

/-- Success path of the playback helper in action-replay mode: with the
render/write_video assertion passing and states and actions of equal
length, the helper loads the initial state and runs the loop over the
selected window. -/
lemma playback_action_mode (dyn : Vec → Vec → Vec) (rand : Nat → Nat)
    (numFrames : Option Nat) (env : EnvModel) (initialState : StateDict)
    (states acts : List Vec) (render writeVideo : Bool) (videoSkip : Nat)
    (first verbose : Bool) (hrw : (render && writeVideo) = false)
    (hlen : states.length = acts.length) :
    playback_trajectory_with_env dyn rand numFrames env initialState states (some acts)
        render writeVideo videoSkip first verbose
      = Except.ok (playLoop dyn states acts true writeVideo videoSkip first verbose
          states.length
          (List.range' (windowSelect numFrames states.length rand).1
            ((windowSelect numFrames states.length rand).2
              - (windowSelect numFrames states.length rand).1))
          (reset_to env initialState) 0) := by
  simp [playback_trajectory_with_env, hrw, hlen]

/-- Claim C1: in action-replay mode, every index of the played window is
executed in order and playback always continues to the next step -- the
result is Except.ok with steps covering the whole window regardless of any
divergence -- and the emitted warnings are exactly the per-index divergence
warnings: at index i below the final trajectory index the snapshot (the
deterministic fold of the dynamics over the actions taken so far) is
compared elementwise with states[i+1], and on any difference the norm of
the difference is reported exactly when verbose is set or i equals
traj_len - 2 (the filterMap of stepWarning over the window). -/
theorem action_replay_divergence_reporting (dyn : Vec → Vec → Vec) (rand : Nat → Nat)
    (numFrames : Option Nat) (env : EnvModel) (initialState : StateDict)
    (states acts : List Vec) (writeVideo : Bool) (videoSkip : Nat) (verbose : Bool)
    (s e : Nat) (hlen : states.length = acts.length)
    (hse : windowSelect numFrames states.length rand = (s, e)) :
    ∃ r : PlayResult,
      playback_trajectory_with_env dyn rand numFrames env initialState states (some acts)
        false writeVideo videoSkip false verbose = Except.ok r ∧
      r.steps = List.range' s (e - s) ∧
      r.warnings = (List.range' s (e - s)).filterMap
        (fun i => stepWarning states states.length verbose i
          (stateAfterFrom dyn acts (reset_to env initialState).simState s i)) := by
  have hmode := playback_action_mode dyn rand numFrames env initialState states acts
    false writeVideo videoSkip false verbose rfl hlen
  rw [hse] at hmode
  refine ⟨_, hmode, ?_, ?_⟩
  · exact playLoop_steps dyn states acts true writeVideo videoSkip verbose states.length
      (List.range' s (e - s)) (reset_to env initialState) 0
  · exact playLoop_warnings_action dyn states acts writeVideo videoSkip verbose
      states.length (e - s) s (reset_to env initialState) 0

/-- Witness for C1 at a concrete three-step trajectory whose actions
reproduce the recorded states except at the penultimate index, where the
divergence warning is emitted. -/
theorem action_replay_divergence_reporting_witness :
    (([[0], [0], [0]] : List Vec).length = ([[0], [7], [0]] : List Vec).length) ∧
    windowSelect none ([[0], [0], [0]] : List Vec).length (fun _ => 0) = (0, 3) ∧
    ∃ r : PlayResult,
      playback_trajectory_with_env (fun a _ => a) (fun _ => 0) none
        { simState := [0], sceneXml := "x", reloads := 0 } {} ([[0], [0], [0]] : List Vec)
        (some ([[0], [7], [0]] : List Vec)) false true 1 false false = Except.ok r ∧
      r.steps = List.range' 0 (3 - 0) ∧
      r.warnings = (List.range' 0 (3 - 0)).filterMap
        (fun i => stepWarning ([[0], [0], [0]] : List Vec)
          ([[0], [0], [0]] : List Vec).length false i
          (stateAfterFrom (fun a _ => a) ([[0], [7], [0]] : List Vec)
            (reset_to { simState := [0], sceneXml := "x", reloads := 0 } {}).simState 0 i)) :=
  ⟨rfl, rfl,
    action_replay_divergence_reporting (fun a _ => a) (fun _ => 0) none
      { simState := [0], sceneXml := "x", reloads := 0 } {} ([[0], [0], [0]] : List Vec)
      ([[0], [7], [0]] : List Vec) true 1 false 0 3 rfl rfl⟩

/-- Claim C2: in state-replay mode the structural scene model is reloaded
exactly once per episode: the initial reset_to with the model key performs
the single reload (reloads goes up by one and the scene becomes the
episode model), and every per-step restore passes a dict with only the
states key, leaving the reload count and the loaded scene untouched for
the rest of the episode. -/
theorem state_replay_single_reload (dyn : Vec → Vec → Vec) (rand : Nat → Nat)
    (numFrames : Option Nat) (env : EnvModel) (states : List Vec) (xml : String)
    (epMeta : Option String) (render writeVideo : Bool) (videoSkip : Nat)
    (first verbose : Bool) (hrw : (render && writeVideo) = false) :
    ∃ r : PlayResult,
      playback_trajectory_with_env dyn rand numFrames env
        (process_demo_initial_state states xml epMeta) states none render writeVideo
        videoSkip first verbose = Except.ok r ∧
      r.env.reloads = env.reloads + 1 ∧
      r.env.sceneXml = xml := by
  have hmode := playback_state_mode dyn rand numFrames env
    (process_demo_initial_state states xml epMeta) states render writeVideo videoSkip
    first verbose hrw
  refine ⟨_, hmode, ?_, ?_⟩
  · have h := (playLoop_env_preserved dyn states [] false writeVideo videoSkip first
      verbose states.length
      (List.range' (windowSelect numFrames states.length rand).1
        ((windowSelect numFrames states.length rand).2
          - (windowSelect numFrames states.length rand).1))
      (reset_to env (process_demo_initial_state states xml epMeta)) 0).1
    rw [h]
    simp [reset_to, process_demo_initial_state]
  · have h := (playLoop_env_preserved dyn states [] false writeVideo videoSkip first
      verbose states.length
      (List.range' (windowSelect numFrames states.length rand).1
        ((windowSelect numFrames states.length rand).2
          - (windowSelect numFrames states.length rand).1))
      (reset_to env (process_demo_initial_state states xml epMeta)) 0).2
    rw [h]
    simp [reset_to, process_demo_initial_state]

/-- Witness for C2 at a concrete two-step episode: playback succeeds, the
reload count rises from zero to exactly one, and the loaded scene is the
episode model. -/
theorem state_replay_single_reload_witness :
    ((false && true) = false) ∧
    ∃ r : PlayResult,
      playback_trajectory_with_env (fun a _ => a) (fun _ => 0) none
        { simState := [0], sceneXml := "x", reloads := 0 }
        (process_demo_initial_state ([[1], [2]] : List Vec) "scene" none)
        ([[1], [2]] : List Vec) none false true 1 false false = Except.ok r ∧
      r.env.reloads = 0 + 1 ∧
      r.env.sceneXml = "scene" :=
  ⟨rfl,
    state_replay_single_reload (fun a _ => a) (fun _ => 0) none
      { simState := [0], sceneXml := "x", reloads := 0 } ([[1], [2]] : List Vec)
      "scene" none false true 1 false false rfl⟩

/-- Claim C3: for a trajectory of length L and a configured window length
w < L, the randomly selected start index lies in [0, L-w], the end index
is start + w, and the played window has length exactly w; the identical
window-selection logic governs state-replay and action-replay, which play
the very same step indices under the same random draw. -/
theorem window_selection_bounds (dyn : Vec → Vec → Vec) (rand : Nat → Nat)
    (env : EnvModel) (initialState : StateDict) (states acts : List Vec)
    (videoSkip : Nat) (verbose : Bool) (w s e : Nat)
    (hw : w < states.length)
    (hr : rand (states.length - w + 1) < states.length - w + 1)
    (hlen : states.length = acts.length)
    (hse : windowSelect (some w) states.length rand = (s, e)) :
    s ≤ states.length - w ∧ e = s + w ∧
    ∃ r1 r2 : PlayResult,
      playback_trajectory_with_env dyn rand (some w) env initialState states none
        false true videoSkip false verbose = Except.ok r1 ∧
      playback_trajectory_with_env dyn rand (some w) env initialState states (some acts)
        false true videoSkip false verbose = Except.ok r2 ∧
      r1.steps = List.range' s (e - s) ∧ r2.steps = r1.steps ∧
      r1.steps.length = w := by
  have hmin : min w states.length = w := Nat.min_eq_left (Nat.le_of_lt hw)
  have hse2 : (rand (states.length - w + 1), rand (states.length - w + 1) + w) = (s, e) := by
    rw [← hse]
    simp [windowSelect, hmin]
  have hs : rand (states.length - w + 1) = s := congrArg Prod.fst hse2
  have he : rand (states.length - w + 1) + w = e := congrArg Prod.snd hse2
  refine ⟨by omega, by omega, ?_⟩
  have hmode1 := playback_state_mode dyn rand (some w) env initialState states
    false true videoSkip false verbose rfl
  have hmode2 := playback_action_mode dyn rand (some w) env initialState states acts
    false true videoSkip false verbose rfl hlen
  rw [hse] at hmode1 hmode2
  refine ⟨_, _, hmode1, hmode2, ?_, ?_, ?_⟩
  · exact playLoop_steps dyn states [] false true videoSkip verbose states.length
      (List.range' s (e - s)) (reset_to env initialState) 0
  · rw [playLoop_steps dyn states acts true true videoSkip verbose states.length
      (List.range' s (e - s)) (reset_to env initialState) 0,
      playLoop_steps dyn states [] false true videoSkip verbose states.length
      (List.range' s (e - s)) (reset_to env initialState) 0]
  · rw [playLoop_steps dyn states [] false true videoSkip verbose states.length
      (List.range' s (e - s)) (reset_to env initialState) 0]
    rw [List.length_range']
    omega

/-- Witness for C3: trajectory of length three, window length two, a draw
of one: the window is [1, 3), of length two, identical in both modes. -/
theorem window_selection_bounds_witness :
    (2 < ([[0], [1], [2]] : List Vec).length) ∧
    ((fun _ => 1 : Nat → Nat) (([[0], [1], [2]] : List Vec).length - 2 + 1)
      < ([[0], [1], [2]] : List Vec).length - 2 + 1) ∧
    (([[0], [1], [2]] : List Vec).length = ([[0], [0], [0]] : List Vec).length) ∧
    windowSelect (some 2) ([[0], [1], [2]] : List Vec).length (fun _ => 1) = (1, 3) ∧
    (1 ≤ ([[0], [1], [2]] : List Vec).length - 2 ∧ 3 = 1 + 2 ∧
      ∃ r1 r2 : PlayResult,
        playback_trajectory_with_env (fun a _ => a) (fun _ => 1) (some 2)
          { simState := [0], sceneXml := "x", reloads := 0 } {}
          ([[0], [1], [2]] : List Vec) none false true 1 false false = Except.ok r1 ∧
        playback_trajectory_with_env (fun a _ => a) (fun _ => 1) (some 2)
          { simState := [0], sceneXml := "x", reloads := 0 } {}
          ([[0], [1], [2]] : List Vec) (some ([[0], [0], [0]] : List Vec))
          false true 1 false false = Except.ok r2 ∧
        r1.steps = List.range' 1 (3 - 1) ∧ r2.steps = r1.steps ∧
        r1.steps.length = 2) :=
  ⟨by decide, by decide, rfl, rfl,
    window_selection_bounds (fun a _ => a) (fun _ => 1)
      { simState := [0], sceneXml := "x", reloads := 0 } {}
      ([[0], [1], [2]] : List Vec) ([[0], [0], [0]] : List Vec) 1 false 2 1 3
      (by decide) (by decide) rfl rfl⟩

/-- Claim C4: with a video writer, first-only off, and sampling interval
k >= 1, the number of frames appended over a played window equals the
ceiling of the window length divided by k -- a frame is written exactly on
the iterations whose zero-based counter is divisible by k -- and the same
holds for observation-only playback over a trajectory of any length. -/
theorem frame_sampling_ceil (dyn : Vec → Vec → Vec) (rand : Nat → Nat)
    (numFrames : Option Nat) (env : EnvModel) (initialState : StateDict)
    (states : List Vec) (videoSkip : Nat) (verbose : Bool) (s e : Nat)
    (hk : 1 ≤ videoSkip)
    (hse : windowSelect numFrames states.length rand = (s, e)) :
    (∃ r : PlayResult,
      playback_trajectory_with_env dyn rand numFrames env initialState states none
        false true videoSkip false verbose = Except.ok r ∧
      r.steps.length = e - s ∧
      r.frames = ((e - s) + videoSkip - 1) / videoSkip) ∧
    ∀ L : Nat, playback_trajectory_with_obs L videoSkip false
      = (L + videoSkip - 1) / videoSkip := by
  constructor
  · have hmode := playback_state_mode dyn rand numFrames env initialState states
      false true videoSkip false verbose rfl
    rw [hse] at hmode
    refine ⟨_, hmode, ?_, ?_⟩
    · rw [playLoop_steps dyn states [] false true videoSkip verbose states.length
        (List.range' s (e - s)) (reset_to env initialState) 0]
      simp [List.length_range']
    · rw [playLoop_frames dyn states [] false videoSkip verbose states.length
        (List.range' s (e - s)) (reset_to env initialState) 0]
      rw [List.length_range']
      exact multCount_eq_ceil videoSkip hk (e - s)
  · intro L
    unfold playback_trajectory_with_obs
    rw [obsLoop_frames videoSkip (List.range L) 0, List.length_range]
    exact multCount_eq_ceil videoSkip hk L

/-- Witness for C4: a window of length three sampled at interval two yields
two frames in simulator playback, and a five-step observation trajectory
at interval two yields three frames. -/
theorem frame_sampling_ceil_witness :
    (1 ≤ 2) ∧
    windowSelect none ([[0], [1], [2]] : List Vec).length (fun _ => 0) = (0, 3) ∧
    ((∃ r : PlayResult,
      playback_trajectory_with_env (fun a _ => a) (fun _ => 0) none
        { simState := [0], sceneXml := "x", reloads := 0 } {}
        ([[0], [1], [2]] : List Vec) none false true 2 false false = Except.ok r ∧
      r.steps.length = 3 - 0 ∧
      r.frames = ((3 - 0) + 2 - 1) / 2) ∧
    ∀ L : Nat, playback_trajectory_with_obs L 2 false = (L + 2 - 1) / 2) :=
  ⟨by decide, rfl,
    frame_sampling_ceil (fun a _ => a) (fun _ => 0) none
      { simState := [0], sceneXml := "x", reloads := 0 } {}
      ([[0], [1], [2]] : List Vec) 2 false 0 3 (by decide) rfl⟩

/-- Claim C9: for a trajectory of length L >= 1 and a configured window
length w >= L, window selection never fails: the requested length is
clamped to L, the random draw ranges over the single-element range so the
start index is necessarily 0, and the full trajectory is played. -/
theorem window_clamp_full_trajectory (dyn : Vec → Vec → Vec) (rand : Nat → Nat)
    (env : EnvModel) (initialState : StateDict) (states : List Vec)
    (videoSkip : Nat) (verbose : Bool) (w : Nat)
    (_hL : 1 ≤ states.length) (hw : states.length ≤ w) (hr : rand 1 < 1) :
    windowSelect (some w) states.length rand = (0, states.length) ∧
    ∃ r : PlayResult,
      playback_trajectory_with_env dyn rand (some w) env initialState states none
        false true videoSkip false verbose = Except.ok r ∧
      r.steps = List.range states.length := by
  have hmin : min w states.length = states.length := Nat.min_eq_right hw
  have hr0 : rand 1 = 0 := by omega
  have hwin : windowSelect (some w) states.length rand = (0, states.length) := by
    simp [windowSelect, hmin, Nat.sub_self, hr0]
  refine ⟨hwin, ?_⟩
  have hmode := playback_state_mode dyn rand (some w) env initialState states
    false true videoSkip false verbose rfl
  rw [hwin] at hmode
  refine ⟨_, hmode, ?_⟩
  rw [playLoop_steps dyn states [] false true videoSkip verbose states.length
    (List.range' 0 (states.length - 0)) (reset_to env initialState) 0]
  rw [List.range_eq_range']
  simp

/-- Witness for C9: a single-state trajectory with requested window length
three plays the full trajectory from start index 0. -/
theorem window_clamp_full_trajectory_witness :
    (1 ≤ ([[5]] : List Vec).length) ∧ (([[5]] : List Vec).length ≤ 3) ∧
    ((fun _ => 0 : Nat → Nat) 1 < 1) ∧
    (windowSelect (some 3) ([[5]] : List Vec).length (fun _ => 0)
        = (0, ([[5]] : List Vec).length) ∧
      ∃ r : PlayResult,
        playback_trajectory_with_env (fun a _ => a) (fun _ => 0) (some 3)
          { simState := [0], sceneXml := "x", reloads := 0 } {} ([[5]] : List Vec)
          none false true 1 false false = Except.ok r ∧
        r.steps = List.range ([[5]] : List Vec).length) :=
  ⟨by decide, by decide, by decide,
    window_clamp_full_trajectory (fun a _ => a) (fun _ => 0)
      { simState := [0], sceneXml := "x", reloads := 0 } {} ([[5]] : List Vec)
      1 false 3 (by decide) (by decide) (by decide)⟩

/-- Claim C10: for an episode whose recorded action and state sequences
have equal length, enabling extend_states together with action replay
appends exactly 50 copies of the final state while leaving the actions
unchanged, so the equal-length assertion fails before any step is taken:
playback returns the assertion error. -/
theorem extend_states_action_replay_assertion (dyn : Vec → Vec → Vec)
    (rand : Nat → Nat) (numFrames : Option Nat) (env : EnvModel) (xml : String)
    (epMeta : Option String) (render : Bool) (videoSkip : Nat) (first verbose : Bool)
    (states acts : List Vec) (_hne : states ≠ []) (hlen : acts.length = states.length) :
    (process_demo_states states true).length = states.length + 50 ∧
    playback_trajectory_with_env dyn rand numFrames env
      (process_demo_initial_state (process_demo_states states true) xml epMeta)
      (process_demo_states states true) (some acts) render
      (process_demo_write_video render) videoSkip first verbose
      = Except.error ("assert states.shape[0] == actions.shape[0]") := by
  have hlen50 : (process_demo_states states true).length = states.length + 50 := by
    simp [process_demo_states]
  refine ⟨hlen50, ?_⟩
  have hrw : (render && process_demo_write_video render) = false := by
    cases render <;> rfl
  have hdiff : (process_demo_states states true).length ≠ acts.length := by
    rw [hlen50, hlen]
    omega
  simp [playback_trajectory_with_env, hrw, hdiff]

/-- Witness for C10: a one-step episode with matching action count fails
the length assertion once extend_states pads the states to 51 entries. -/
theorem extend_states_action_replay_assertion_witness :
    (([[1]] : List Vec) ≠ []) ∧
    (([[2]] : List Vec).length = ([[1]] : List Vec).length) ∧
    ((process_demo_states ([[1]] : List Vec) true).length = ([[1]] : List Vec).length + 50 ∧
      playback_trajectory_with_env (fun a _ => a) (fun _ => 0) none
        { simState := [0], sceneXml := "x", reloads := 0 }
        (process_demo_initial_state (process_demo_states ([[1]] : List Vec) true) "scene" none)
        (process_demo_states ([[1]] : List Vec) true) (some ([[2]] : List Vec)) false
        (process_demo_write_video false) 1 false false
        = Except.error ("assert states.shape[0] == actions.shape[0]")) :=
  ⟨by decide, rfl,
    extend_states_action_replay_assertion (fun a _ => a) (fun _ => 0) none
      { simState := [0], sceneXml := "x", reloads := 0 } "scene" none false 1 false false
      ([[1]] : List Vec) ([[2]] : List Vec) (by decide) rfl⟩
